import Mathlib

/-!
Verification development for the openbuildings building-data fetch pipeline.

The Python sources are shallowly embedded:

* Python values that flow through the property extractor are modelled by
  the inductive type `PyVal` (with `none` and `nan` as explicit
  constructors, floats as rationals, dicts as ordered association lists,
  matching the insertion-order semantics of Python dicts).
* Code that can raise is modelled in the `Except String` monad; a raised
  exception is an `Except.error`.
* The external geometry library (shapely) is treated as an oracle: a
  parsed geometry is a `Geom` record carrying its centroid coordinates and
  the precomputed result of the intersection test against the fixed input
  polygon of the fetch.  A record whose WKB geometry fails to parse
  carries `Option.none` (the Python parser returns None on failure).
* The upstream record-batch reader is a value of type
  `Except String (Option (List (List RawRecord)))`: an `error` models an
  exception raised while opening the stream, `ok none` models the SDK
  returning None, and `ok (some batches)` is the stream of record batches.
* pandas `pd.isna` is modelled by `isnaScalar` and `isValidValue`; the
  truth test `if pd.isna(v)` on a list-like value evaluates the truth
  value of a numpy array, which raises ValueError unless the array has
  exactly one element.  This is modelled by returning `Except.error`.
-/

/-- Model of a Python value as it appears in an upstream record:
None, float NaN, bool, int, float (as a rational), str, list, dict. -/
inductive PyVal where
  | none : PyVal
  | nan : PyVal
  | bool (b : Bool) : PyVal
  | int (n : Int) : PyVal
  | float (q : Rat) : PyVal
  | str (s : String) : PyVal
  | list (xs : List PyVal) : PyVal
  | dict (kvs : List (String × PyVal)) : PyVal

/-- A Python dict with string keys, in insertion order. -/
def PyDict := List (String × PyVal)

/-- Lookup in a dict (Python d.get(k) / k in d). -/
def dictGet : PyDict → String → Option PyVal
  | [], _ => Option.none
  | (k, v) :: rest, key => if k = key then some v else dictGet rest key

/-- Assignment d[k] = v on a Python dict: overwrite in place if the key is
present, otherwise append at the end (insertion order is preserved). -/
def dictSet : PyDict → String → PyVal → PyDict
  | [], key, v => [(key, v)]
  | (k, w) :: rest, key, v =>
      if k = key then (key, v) :: rest else (k, w) :: dictSet rest key v

/-- Truthiness of a Python value (bool(v)); total, never raises for the
values in the model. -/
def pyTruthy : PyVal → Bool
  | .none => false
  | .nan => true
  | .bool b => b
  | .int n => n ≠ 0
  | .float q => q ≠ 0
  | .str s => s ≠ ""
  | .list xs => !xs.isEmpty
  | .dict kvs => !kvs.isEmpty

/-- Scalar pd.isna: True exactly for None and float NaN. -/
def isnaScalar : PyVal → Bool
  | .none => true
  | .nan => true
  | _ => false

/-- Model of the helper checking if value is valid (not None, not NaN),
from overture_buildings.  The statement `if pd.isna(value)` evaluates the
truth value of the result of pd.isna; on a list-like value pd.isna
returns a numpy boolean array, whose truth value raises ValueError unless
the array has exactly one element.  Dicts are treated by pandas as
scalars (not NA). -/
def isValidValue : PyVal → Except String Bool
  | .none => .ok false
  | .nan => .ok false
  | .bool _ => .ok true
  | .int _ => .ok true
  | .float _ => .ok true
  | .str _ => .ok true
  | .dict _ => .ok true
  | .list xs =>
      match xs with
      | [x] => .ok (!isnaScalar x)
      | _ => .error "ValueError: the truth value of an array is ambiguous"

mutual

/-- Model of the conversion of numpy and pandas values to native Python
values.  Wrapped numpy scalars are already represented natively in the
model, so the function is the structural recursion of the source: lists
are converted elementwise, dict values are converted, everything else is
returned unchanged.  It is total (never raises). -/
def convertToPythonType : PyVal → PyVal
  | .list xs => .list (convertPyList xs)
  | .dict kvs => .dict (convertPyDict kvs)
  | .none => .none
  | .nan => .nan
  | .bool b => .bool b
  | .int n => .int n
  | .float q => .float q
  | .str s => .str s

/-- Elementwise conversion of a Python list (the list/tuple branch). -/
def convertPyList : List PyVal → List PyVal
  | [] => []
  | x :: xs => convertToPythonType x :: convertPyList xs

/-- Valuewise conversion of a Python dict (the dict branch). -/
def convertPyDict : List (String × PyVal) → List (String × PyVal)
  | [] => []
  | (k, v) :: rest => (k, convertToPythonType v) :: convertPyDict rest

end

/-- Python str(v): total, never raises. -/
def pyStr : PyVal → String
  | .none => "None"
  | .nan => "nan"
  | .bool b => if b then "True" else "False"
  | .int n => toString n
  | .float q => toString q
  | .str s => s
  | .list _ => "[...]"
  | .dict _ => "\x7b...\x7d"

/-- Python int(v): raises TypeError or ValueError on values that do not
convert; a float is truncated toward zero. -/
def pyInt : PyVal → Except String Int
  | .bool b => .ok (if b then 1 else 0)
  | .int n => .ok n
  | .float q => .ok (if q < 0 then -((-q).floor) else q.floor)
  | .nan => .error "ValueError: cannot convert float NaN to integer"
  | .str s =>
      match s.toInt? with
      | some n => .ok n
      | Option.none => .error "ValueError: invalid literal for int"
  | _ => .error "TypeError: int() argument"

/-- Python float(v) in the model: the result is again a PyVal, so that
NaN maps to NaN; raises on non-numeric values (string parsing of floats
is modelled only for integer-shaped literals). -/
def pyFloat : PyVal → Except String PyVal
  | .bool b => .ok (.float (if b then 1 else 0))
  | .int n => .ok (.float n)
  | .float q => .ok (.float q)
  | .nan => .ok .nan
  | .str s =>
      match s.toInt? with
      | some n => .ok (.float n)
      | Option.none => .error "ValueError: could not convert string to float"
  | _ => .error "TypeError: float() argument"

/-- Python bool(v): total, never raises. -/
def pyBool (v : PyVal) : PyVal := .bool (pyTruthy v)

/-- Skip JSON whitespace. -/
def skipWs : List Char → List Char
  | c :: rest =>
      if c = ' ' ∨ c = '\n' ∨ c = '\t' ∨ c = '\r' then skipWs rest else c :: rest
  | [] => []

/-- Match a literal character sequence at the head of the input. -/
def dropLit : List Char → List Char → Option (List Char)
  | [], cs => some cs
  | _ :: _, [] => Option.none
  | l :: ls, c :: cs => if c = l then dropLit ls cs else Option.none

/-- Scan the body of a JSON string up to the closing quote; backslash
escapes the next character (subset of the JSON escapes). -/
def scanJsonString : List Char → List Char → Except String (String × List Char)
  | _, [] => .error "unterminated string"
  | acc, c :: rest =>
      if c = '\"' then .ok (String.mk acc.reverse, rest)
      else if c = '\\' then
        match rest with
        | [] => .error "unterminated escape"
        | e :: rest2 =>
            let d := if e = 'n' then '\n' else if e = 't' then '\t' else e
            scanJsonString (d :: acc) rest2
      else scanJsonString (c :: acc) rest

/-- Scan a run of decimal digits, returning their value and count. -/
def scanDigits : Nat → Nat → List Char → Nat × Nat × List Char
  | acc, n, c :: rest =>
      if c.isDigit then scanDigits (acc * 10 + (c.toNat - 48)) (n + 1) rest
      else (acc, n, c :: rest)
  | acc, n, [] => (acc, n, [])

/-- Parse a JSON number (optional minus, digits, optional fraction). -/
def scanJsonNumber (cs : List Char) : Except String (PyVal × List Char) :=
  let (neg, cs1) :=
    match cs with
    | c :: rest => if c = '-' then (true, rest) else (false, cs)
    | [] => (false, [])
  let (ip, ipn, cs2) := scanDigits 0 0 cs1
  if ipn = 0 then .error "invalid number"
  else
    match cs2 with
    | c :: rest =>
        if c = '.' then
          let (fp, fpn, cs3) := scanDigits 0 0 rest
          if fpn = 0 then .error "invalid number"
          else
            let q : Rat := (ip : Rat) + (fp : Rat) / ((10 : Rat) ^ fpn)
            .ok (.float (if neg then -q else q), cs3)
        else .ok (.int (if neg then -(ip : Int) else (ip : Int)), cs2)
    | [] => .ok (.int (if neg then -(ip : Int) else (ip : Int)), [])

mutual

/-- Parse one JSON value; the fuel argument dominates the nesting depth
(it is instantiated with the length of the input, which suffices). -/
def parseJsonVal : Nat → List Char → Except String (PyVal × List Char)
  | 0, _ => .error "json nesting too deep"
  | fuel + 1, cs =>
      match skipWs cs with
      | [] => .error "unexpected end of json"
      | c :: rest =>
          if c = 'n' then
            match dropLit ['u', 'l', 'l'] rest with
            | some rest2 => .ok (.none, rest2)
            | Option.none => .error "invalid json literal"
          else if c = 't' then
            match dropLit ['r', 'u', 'e'] rest with
            | some rest2 => .ok (.bool true, rest2)
            | Option.none => .error "invalid json literal"
          else if c = 'f' then
            match dropLit ['a', 'l', 's', 'e'] rest with
            | some rest2 => .ok (.bool false, rest2)
            | Option.none => .error "invalid json literal"
          else if c = '\"' then
            match scanJsonString [] rest with
            | .ok (s, rest2) => .ok (.str s, rest2)
            | .error e => .error e
          else if c = '[' then
            match skipWs rest with
            | ']' :: rest2 => .ok (.list [], rest2)
            | rest2 =>
                match parseJsonItems fuel rest2 with
                | .ok (xs, rest3) => .ok (.list xs, rest3)
                | .error e => .error e
          else if c = '\x7b' then
            match skipWs rest with
            | '\x7d' :: rest2 => .ok (.dict [], rest2)
            | rest2 =>
                match parseJsonMembers fuel rest2 with
                | .ok (kvs, rest3) => .ok (.dict kvs, rest3)
                | .error e => .error e
          else scanJsonNumber (c :: rest)

/-- Parse the comma-separated items of a JSON array, then the closing
bracket. -/
def parseJsonItems : Nat → List Char → Except String (List PyVal × List Char)
  | 0, _ => .error "json nesting too deep"
  | fuel + 1, cs => do
      let (v, rest) ← parseJsonVal fuel cs
      match skipWs rest with
      | ',' :: rest2 =>
          match parseJsonItems fuel rest2 with
          | .ok (xs, rest3) => .ok (v :: xs, rest3)
          | .error e => .error e
      | ']' :: rest2 => .ok ([v], rest2)
      | _ => .error "expected comma or closing bracket"

/-- Parse the comma-separated members of a JSON object, then the closing
brace. -/
def parseJsonMembers : Nat → List Char → Except String (List (String × PyVal) × List Char)
  | 0, _ => .error "json nesting too deep"
  | fuel + 1, cs =>
      match skipWs cs with
      | '\"' :: rest => do
          let (k, rest2) ← (scanJsonString [] rest : Except String (String × List Char))
          match skipWs rest2 with
          | ':' :: rest3 => do
              let (v, rest4) ← parseJsonVal fuel rest3
              match skipWs rest4 with
              | ',' :: rest5 =>
                  match parseJsonMembers fuel rest5 with
                  | .ok (kvs, rest6) => .ok ((k, v) :: kvs, rest6)
                  | .error e => .error e
              | '\x7d' :: rest5 => .ok ([(k, v)], rest5)
              | _ => .error "expected comma or closing brace"
          | _ => .error "expected colon"
      | _ => .error "expected object key"

end

/-- Model of Python json.loads on the JSON subset used here: raises (an
error) on malformed input, otherwise returns the parsed value. -/
def jsonLoads (s : String) : Except String PyVal := do
  let (v, rest) ← parseJsonVal (s.length + 1) s.toList
  match skipWs rest with
  | [] => .ok v
  | _ => .error "extra data after json value"

/-- Declared expected type of a canonical field (the second component of
the fields-to-extract table; tnone is the Python None entry). -/
inductive FieldTy where
  | tstr : FieldTy
  | tfloat : FieldTy
  | tint : FieldTy
  | tbool : FieldTy
  | tnone : FieldTy

/-- The canonical schema: the fields-to-extract table of the property
extractor, in source order. -/
def fieldsToExtract : List (String × FieldTy) :=
  [("id", .tstr), ("height", .tfloat), ("num_floors", .tint),
   ("class", .tstr), ("subtype", .tstr), ("names", .tnone),
   ("level", .tint), ("has_parts", .tbool), ("is_underground", .tbool),
   ("facade_color", .tstr), ("facade_material", .tstr),
   ("roof_material", .tstr), ("roof_shape", .tstr),
   ("roof_direction", .tfloat), ("roof_orientation", .tstr),
   ("roof_color", .tstr), ("eave_height", .tfloat),
   ("min_height", .tfloat), ("min_floor", .tint), ("sources", .tnone)]

/-- Body of one iteration of the typed-extraction loop of the property
extractor, i.e. the contents of its try block; may raise. -/
def extractFieldCore (record props : PyDict) (nm : String) (ty : FieldTy) :
    Except String PyDict := do
  match dictGet record nm with
  | Option.none => pure props
  | some v =>
      let valid ← isValidValue v
      if !valid then pure props
      else if nm = "sources" then do
        let v1 ← (match v with | .str s => jsonLoads s | w => pure w)
        let v2 := convertToPythonType v1
        if pyTruthy v2 then pure (dictSet props nm v2) else pure props
      else if nm = "names" then do
        let v1 ← (match v with | .str s => jsonLoads s | w => pure w)
        let v2 := convertToPythonType v1
        if pyTruthy v2 then pure (dictSet props nm v2) else pure props
      else
        match ty with
        | .tint => do
            let n ← pyInt (convertToPythonType v)
            pure (dictSet props nm (.int n))
        | .tfloat => do
            let f ← pyFloat (convertToPythonType v)
            pure (dictSet props nm f)
        | .tbool => pure (dictSet props nm (pyBool (convertToPythonType v)))
        | .tstr => pure (dictSet props nm (.str (pyStr v)))
        | .tnone => pure (dictSet props nm (convertToPythonType v))

/-- One iteration of the typed-extraction loop with its try/except
wrapper: a raised exception leaves the properties unchanged (pass). -/
def extractField (record props : PyDict) (nm : String) (ty : FieldTy) : PyDict :=
  match extractFieldCore record props nm ty with
  | .ok p => p
  | .error _ => props

/-- The second loop of the property extractor, forwarding any remaining
valid record field not already extracted and not the geometry column.
The validity test is evaluated in the loop condition, OUTSIDE the
try/except that guards only the conversion, so an exception raised by the
validity test propagates out of the extractor.  The conversion inside the
try block is total in the model, so its except branch is vacuous. -/
def extractExtraFields : PyDict → List (String × PyVal) → Except String PyDict
  | props, [] => .ok props
  | props, (k, v) :: rest =>
      match dictGet props k with
      | some _ => extractExtraFields props rest
      | Option.none =>
          if k = "geometry" then extractExtraFields props rest
          else do
            let valid ← isValidValue v
            if valid then
              extractExtraFields (dictSet props k (convertToPythonType v)) rest
            else extractExtraFields props rest

/-- Model of the property extractor of overture_buildings: the typed
first loop over the canonical schema (each iteration fully guarded by
try/except), then the forwarding second loop.  The result is an error
exactly when the extractor raises. -/
def extractProperties (record : PyDict) : Except String PyDict :=
  let props := fieldsToExtract.foldl (fun p ft => extractField record p ft.1 ft.2) []
  extractExtraFields props record

/-- Oracle view of a successfully parsed shapely geometry: its centroid
coordinates and the precomputed result of intersects(input_geometry)
against the fixed input polygon of the fetch. -/
structure Geom where
  centroidX : Rat
  centroidY : Rat
  intersectsInput : Bool

/-- One raw upstream record of a batch: the parse result of its WKB
geometry column (Option.none when parsing fails and the parser returns
None), and the remaining row fields as a dict. -/
structure RawRecord where
  geometry : Option Geom
  props : PyDict

/-- A produced GeoJSON feature: its geometry and its properties dict. -/
structure Feature where
  geometry : Geom
  properties : PyDict

/-- Loop state of the batch-to-FeatureCollection conversion: the features
accumulated so far, the retained count, and the filtered-out count. -/
structure ConvState where
  features : List Feature
  count : Nat
  filteredCount : Nat

/-- Processing of a single row inside the conversion loop (the body of
the inner try block, after the count guard): skip on geometry parse
failure, skip and count rows not intersecting the input polygon, extract
properties (an exception there is caught by the except branch, skipping
the row), then overwrite latitude and longitude with the centroid
coordinates and append the feature. -/
def processRow (hasInput : Bool) (st : ConvState) (row : RawRecord) : ConvState :=
  match row.geometry with
  | Option.none => st
  | some g =>
      if hasInput ∧ !g.intersectsInput then
        { st with filteredCount := st.filteredCount + 1 }
      else
        match extractProperties row.props with
        | .error _ => st
        | .ok props0 =>
            let props1 := dictSet props0 "latitude" (.float g.centroidY)
            let props2 := dictSet props1 "longitude" (.float g.centroidX)
            { st with
                features := st.features ++ [{ geometry := g, properties := props2 }]
                count := st.count + 1 }

/-- The inner row loop of the conversion: each iteration first checks the
count against the limit and breaks once reached (modelled by the guard
skipping all remaining rows, which is equivalent because the count never
decreases). -/
def convertRows (limit : Nat) (hasInput : Bool) : ConvState → List RawRecord → ConvState
  | st, [] => st
  | st, row :: rest =>
      if limit ≤ st.count then st
      else convertRows limit hasInput (processRow hasInput st row) rest

/-- The outer batch loop of the conversion, with its own count-limit
break before each batch. -/
def convertBatches (limit : Nat) (hasInput : Bool) : ConvState → List (List RawRecord) → ConvState
  | st, [] => st
  | st, batch :: rest =>
      if limit ≤ st.count then st
      else convertBatches limit hasInput (convertRows limit hasInput st batch) rest

/-- Model of the conversion of record batches to a GeoJSON
FeatureCollection: returns the features list of the collection. -/
def toFeatureCollection (batches : List (List RawRecord)) (limit : Nat) (hasInput : Bool) : List Feature :=
  (convertBatches limit hasInput { features := [], count := 0, filteredCount := 0 } batches).features

/-- Container for the results returned from Overture Maps (the geojson
field is represented by the features list of the FeatureCollection). -/
structure BuildingFetchResult where
  geojson : List Feature
  building_count : Nat
  truncated : Bool
  limit : Nat

/-- The streaming download loop of the fetch: batches are appended to an
accumulator list and the raw record count is accumulated; after appending
a batch, the loop stops as soon as the raw count has reached the limit.
Returns the accumulated batches and the raw downloaded record count. -/
def downloadLoop (limit : Nat) : List (List RawRecord) → Nat → List (List RawRecord) → List (List RawRecord) × Nat
  | acc, total, [] => (acc, total)
  | acc, total, b :: rest =>
      let total2 := total + b.length
      let acc2 := acc ++ [b]
      if limit ≤ total2 then (acc2, total2)
      else downloadLoop limit acc2 total2 rest

/-- Total number of raw records in a list of batches. -/
def sumSizes (batches : List (List RawRecord)) : Nat :=
  (batches.map List.length).sum

/-- Number of raw records held in memory when the conversion starts: the
whole accumulator of the download loop (no batch is dropped before the
conversion). -/
def heldRawRecords (batches : List (List RawRecord)) (limit : Nat) : Nat :=
  sumSizes (downloadLoop limit [] 0 batches).1

/-- Model of the fetch from Overture Maps.  The reader argument is the
outcome of opening the upstream stream: an exception while connecting, a
None reader, or the stream of record batches.  Progress reporting is a
side effect with no influence on the result and is not modelled.  The
surrounding try/except turns any exception into a RuntimeError reported
to the caller. -/
def fetchBuildingsFromOverture
    (reader : Except String (Option (List (List RawRecord))))
    (limit : Nat) : Except String BuildingFetchResult :=
  match reader with
  | .error e => .error ("Failed to fetch buildings from Overture Maps: " ++ e)
  | .ok Option.none =>
      .error ("Failed to fetch buildings from Overture Maps: " ++
        "Overture SDK returned None - no data available for this region")
  | .ok (some stream) =>
      let dl := downloadLoop limit [] 0 stream
      let geojson := toFeatureCollection dl.1 limit true
      .ok { geojson := geojson
            building_count := geojson.length
            truncated := decide (limit < dl.2)
            limit := limit }

/-- Numeric view of a Python value for equality and arithmetic: bools
count as 0 and 1, ints and floats as their rational value. -/
def pyNumQ : PyVal → Option Rat
  | .bool b => some (if b then 1 else 0)
  | .int n => some n
  | .float q => some q
  | _ => Option.none

mutual

/-- Python equality (the == operator) on the modelled values: NaN is not
equal to anything including itself; bools, ints and floats compare by
numeric value across types; strings by value; lists elementwise.  Dict
equality is modelled pairwise in order (a restriction: CPython compares
dicts ignoring insertion order; no dict-keyed counting occurs in the
verified paths). -/
def pyValBeq : PyVal → PyVal → Bool
  | .none, .none => true
  | .nan, _ => false
  | _, .nan => false
  | .str s, .str t => s = t
  | .list xs, .list ys => pyListBeq xs ys
  | .dict xs, .dict ys => pyDictBeq xs ys
  | a, b =>
      match pyNumQ a, pyNumQ b with
      | some q, some r => q = r
      | _, _ => false

/-- Elementwise Python equality on lists. -/
def pyListBeq : List PyVal → List PyVal → Bool
  | [], [] => true
  | x :: xs, y :: ys => pyValBeq x y && pyListBeq xs ys
  | _, _ => false

/-- Pairwise Python equality on dict entries. -/
def pyDictBeq : List (String × PyVal) → List (String × PyVal) → Bool
  | [], [] => true
  | (k, v) :: xs, (k2, v2) :: ys => k = k2 && pyValBeq v v2 && pyDictBeq xs ys
  | _, _ => false

end

/-- One feature of a stored FeatureCollection as seen by the statistics
and pagination helpers of the app (only its properties dict matters). -/
structure StatFeature where
  properties : PyDict

/-- The truthiness-filtered attribute access of the statistics helper:
the list comprehensions keep props.get(k) only when it is truthy, so an
absent key (get returns None) and a present falsy value (0, empty
string) are both dropped. -/
def truthyGet (props : PyDict) (k : String) : Option PyVal :=
  match dictGet props k with
  | Option.none => Option.none
  | some v => if pyTruthy v then some v else Option.none

/-- Count, average, minimum, maximum of a numeric attribute list (the
keys named min and max in the Python dict are minV and maxV here). -/
structure NumStats where
  count : Nat
  avg : Rat
  minV : Rat
  maxV : Rat

/-- Accumulating pass of the numeric aggregation: count, running sum,
minimum and maximum, raising a TypeError on a non-numeric value. -/
def numAggGo : List PyVal → Nat → Rat → Rat → Rat → Except String NumStats
  | [], n, s, lo, hi => .ok { count := n, avg := s / n, minV := lo, maxV := hi }
  | w :: ws, n, s, lo, hi =>
      match pyNumQ w with
      | Option.none => .error "TypeError: unsupported operand type"
      | some q => numAggGo ws (n + 1) (s + q) (min lo q) (max hi q)

/-- Python sum, min and max over the selected attribute values: raises a
TypeError when a value is not numeric (NaN aggregation is outside the
model: NaN attribute values are dropped upstream by the extractor).
Never called on an empty list (guarded by the truthiness of the list). -/
def numAgg : List PyVal → Except String NumStats
  | [] => .error "empty aggregation"
  | v :: vs =>
      match pyNumQ v with
      | Option.none => .error "TypeError: unsupported operand type"
      | some q0 => numAggGo vs 1 q0 q0 q0

/-- Increment the counter for a key in an association list, appending a
new counter at the end on first sight (dict insertion order). -/
def bumpCount (k : PyVal) : List (PyVal × Nat) → List (PyVal × Nat)
  | [] => [(k, 1)]
  | (k2, n) :: rest =>
      if pyValBeq k2 k then (k2, n + 1) :: rest else (k2, n) :: bumpCount k rest

/-- Frequency counts of a list of values, in first-seen order. -/
def countValues (xs : List PyVal) : List (PyVal × Nat) :=
  xs.foldl (fun acc x => bumpCount x acc) []

/-- Stable insertion into a list sorted by descending count: an element
is placed before the first strictly smaller count, after equal counts
(matching the stable Python sorted with reverse=True). -/
def insertByCountDesc (x : PyVal × Nat) : List (PyVal × Nat) → List (PyVal × Nat)
  | [] => [x]
  | y :: ys => if y.2 ≤ x.2 then x :: y :: ys else y :: insertByCountDesc x ys

/-- Stable sort by descending count. -/
def sortByCountDesc : List (PyVal × Nat) → List (PyVal × Nat)
  | [] => []
  | x :: xs => insertByCountDesc x (sortByCountDesc xs)

/-- Extraction of the dataset name of the first source of a feature, for
the source breakdown: requires sources to be a truthy list; raises an
AttributeError when its first element is not a dict (x.get on a
non-dict); a missing dataset key falls back to the string Unknown. -/
def sourceDataset (props : PyDict) : Except String (Option PyVal) :=
  match dictGet props "sources" with
  | Option.none => .ok Option.none
  | some v =>
      if !pyTruthy v then .ok Option.none
      else
        match v with
        | .list [] => .ok Option.none
        | .list (first :: _) =>
            match first with
            | .dict kvs =>
                match dictGet kvs "dataset" with
                | some d => .ok (some d)
                | Option.none => .ok (some (.str "Unknown"))
            | _ => .error "AttributeError: object has no attribute get"
        | _ => .ok Option.none

/-- Collect the per-feature source dataset names, propagating a raised
AttributeError. -/
def collectSources : List StatFeature → Except String (List PyVal)
  | [] => .ok []
  | f :: fs => do
      let d ← sourceDataset f.properties
      let rest ← collectSources fs
      match d with
      | some v => .ok (v :: rest)
      | Option.none => .ok rest

/-- The computed statistics dict: a missing key of the Python dict is an
Option.none field. -/
structure BuildingStats where
  heights : Option NumStats
  floors : Option NumStats
  classes : Option (Nat × List (PyVal × Nat))
  sources : Option (List (PyVal × Nat))

/-- The guarded numeric-statistics entry of the statistics helper (the
body of one of the two if-nonempty blocks): no entry when the selected
attribute list is empty, otherwise its aggregate. -/
def aggregateOpt (vs : List PyVal) : Except String (Option NumStats) :=
  if vs.isEmpty then .ok Option.none
  else do
    let a ← numAgg vs
    .ok (some a)

/-- Model of compute_building_statistics of the app: collects the truthy
height, num_floors and class attribute values and the first-source
dataset names, then aggregates each nonempty selection; an empty feature
list and an attribute carried by no feature both simply omit the
corresponding entry.  The classes entry keeps the five most frequent
classes, sorted by descending count. -/
def computeBuildingStatistics (features : List StatFeature) : Except String BuildingStats := do
  if features.isEmpty then
    .ok { heights := Option.none, floors := Option.none,
          classes := Option.none, sources := Option.none }
  else
    let classes := features.filterMap (fun f => truthyGet f.properties "class")
    let sources ← collectSources features
    let hStats ← aggregateOpt (features.filterMap (fun f => truthyGet f.properties "height"))
    let fStats ← aggregateOpt (features.filterMap (fun f => truthyGet f.properties "num_floors"))
    let cStats :=
      if classes.isEmpty then Option.none
      else some (classes.length, (sortByCountDesc (countValues classes)).take 5)
    let sStats :=
      if sources.isEmpty then Option.none
      else some (sortByCountDesc (countValues sources))
    .ok { heights := hStats, floors := fStats, classes := cStats, sources := sStats }

/-- Model of get_paginated_features of the app: the Python slice
features[page * per_page : page * per_page + per_page] on the features
array of the stored FeatureCollection, for nonnegative indices. -/
def getPaginatedFeatures (features : List StatFeature) (page perPage : Nat) : List StatFeature :=
  (features.drop (page * perPage)).take perPage

/-- The session fields written by the fetch handler of the app. -/
structure SessionState where
  building_count : Nat
  filtered_building_data : Option (List Feature)
  info_box_visible : Bool
  data_truncated : Bool
  feature_limit : Nat
  current_page : Nat

/-- Rounding of a coordinate to 6 decimal places, as done by the percent
formatting of the cache-key string. -/
def roundTo6 (q : Rat) : Rat := ((round (q * 1000000) : Int) : Rat) / 1000000

/-- The cache key computed by the fetch handler: the bounding box rounded
to 6 decimals plus the feature limit (the md5 hashing of the formatted
string is abstracted to the rounded tuple itself). -/
def cacheKey (bbox : Rat × Rat × Rat × Rat) (limit : Nat) :
    (Rat × Rat × Rat × Rat) × Nat :=
  ((roundTo6 bbox.1, roundTo6 bbox.2.1, roundTo6 bbox.2.2.1, roundTo6 bbox.2.2.2), limit)

/-- Model of download_and_process_building_data of the app.  The handler
computes the cache key, but only to display it in an informational
message: no cache is consulted or filled, and the upstream fetch is
invoked unconditionally on every call.  The model returns the updated
session state together with the number of upstream fetch invocations
performed by this call.  On a fetch error the handler shows the error and
returns with the session fields unchanged. -/
def downloadAndProcessBuildingData
    (upstreamFetch : Unit → Except String BuildingFetchResult)
    (bbox : Rat × Rat × Rat × Rat) (st : SessionState) : SessionState × Nat :=
  let _key := cacheKey bbox st.feature_limit
  match upstreamFetch () with
  | .ok r =>
      ({ st with
          building_count := r.building_count
          filtered_building_data := some r.geojson
          info_box_visible := true
          data_truncated := r.truncated
          feature_limit := r.limit
          current_page := 0 }, 1)
  | .error _ => (st, 1)

/-- One building polygon produced by the SAM2 segmentation, viewed
through its projected area in square meters (the reprojection of the
geometry to a meters-based system is treated as an oracle). -/
structure SamBuilding where
  area_sqm : Rat

/-- Model of filter_buildings_by_size of the extraction workflow: keeps
the buildings whose projected area lies within the inclusive bounds. -/
def filterBuildingsBySize (buildings : List SamBuilding) (minArea maxArea : Rat) :
    List SamBuilding :=
  buildings.filter (fun b => decide (minArea ≤ b.area_sqm ∧ b.area_sqm ≤ maxArea))

/-- Model of extract_buildings_from_map_view of the SAM2 extraction
workflow.  The imagery download and the segmentation are oracles whose
failure is Option.none (the Python helpers return None on failure, and
the outer try/except produces the same value on any exception).  The
returned triple is (building_count, avg_confidence, features of the
GeoJSON FeatureCollection); the function has no error outcome: every
failure path returns the triple of zero, zero and an empty collection. -/
def extractBuildingsFromMapView
    (imagery : Option Unit) (samBuildings : Option (List SamBuilding))
    (minArea maxArea : Rat) : Nat × Rat × List SamBuilding :=
  match imagery with
  | Option.none => (0, 0, [])
  | some _ =>
      match samBuildings with
      | Option.none => (0, 0, [])
      | some bs =>
          let kept := filterBuildingsBySize bs minArea maxArea
          (kept.length, 85 / 100, kept)

/-- Largest batch size of a stream of batches. -/
def maxBatchSize (batches : List (List RawRecord)) : Nat :=
  (batches.map List.length).foldr max 0

lemma dictGet_dictSet_self (d : PyDict) (k : String) (v : PyVal) :
    dictGet (dictSet d k v) k = some v := by
  induction d with
  | nil => simp [dictSet, dictGet]
  | cons kv rest ih =>
      obtain ⟨k2, w⟩ := kv
      by_cases h : k2 = k
      · subst h
        simp [dictSet, dictGet]
      · simp [dictSet, dictGet, h, ih]

lemma dictGet_dictSet_ne (d : PyDict) (k k2 : String) (v : PyVal) (h : k ≠ k2) :
    dictGet (dictSet d k v) k2 = dictGet d k2 := by
  induction d with
  | nil => simp [dictSet, dictGet, h]
  | cons kv rest ih =>
      obtain ⟨k3, w⟩ := kv
      by_cases h3 : k3 = k
      · subst h3
        simp [dictSet, dictGet, h]
      · simp [dictSet, dictGet, h3, ih]

/-- Every feature has its latitude and longitude properties equal to the
centroid coordinates of its geometry. -/
def centroidProps (f : Feature) : Prop :=
  dictGet f.properties "latitude" = some (.float f.geometry.centroidY) ∧
  dictGet f.properties "longitude" = some (.float f.geometry.centroidX)

lemma processRow_centroidProps (hi : Bool) (st : ConvState) (row : RawRecord)
    (h : ∀ f ∈ st.features, centroidProps f) :
    ∀ f ∈ (processRow hi st row).features, centroidProps f := by
  unfold processRow
  cases hg : row.geometry with
  | none => exact h
  | some g =>
      by_cases hfil : hi ∧ !g.intersectsInput
      · simp only [hfil, if_pos]
        exact h
      · simp only [hfil, if_neg, not_false_eq_true]
        cases hex : extractProperties row.props with
        | error e => exact h
        | ok props0 =>
            intro f hf
            simp only [List.mem_append, List.mem_singleton] at hf
            rcases hf with hf | hf
            · exact h f hf
            · subst hf
              refine ⟨?_, ?_⟩
              · rw [dictGet_dictSet_ne _ _ _ _ (by decide),
                  dictGet_dictSet_self]
              · rw [dictGet_dictSet_self]

lemma convertRows_centroidProps (limit : Nat) (hi : Bool) (rows : List RawRecord) :
    ∀ st : ConvState, (∀ f ∈ st.features, centroidProps f) →
      ∀ f ∈ (convertRows limit hi st rows).features, centroidProps f := by
  induction rows with
  | nil => intro st h; exact h
  | cons row rest ih =>
      intro st h
      unfold convertRows
      by_cases hc : limit ≤ st.count
      · simp only [hc, if_pos]
        exact h
      · simp only [hc, if_neg, not_false_eq_true]
        exact ih _ (processRow_centroidProps hi st row h)

lemma convertBatches_centroidProps (limit : Nat) (hi : Bool) (batches : List (List RawRecord)) :
    ∀ st : ConvState, (∀ f ∈ st.features, centroidProps f) →
      ∀ f ∈ (convertBatches limit hi st batches).features, centroidProps f := by
  induction batches with
  | nil => intro st h; exact h
  | cons batch rest ih =>
      intro st h
      unfold convertBatches
      by_cases hc : limit ≤ st.count
      · simp only [hc, if_pos]
        exact h
      · simp only [hc, if_neg, not_false_eq_true]
        exact ih _ (convertRows_centroidProps limit hi batch st h)

lemma processRow_length_count (hi : Bool) (st : ConvState) (row : RawRecord)
    (h : st.features.length = st.count) :
    (processRow hi st row).features.length = (processRow hi st row).count := by
  unfold processRow
  cases row.geometry with
  | none => exact h
  | some g =>
      by_cases hfil : hi ∧ !g.intersectsInput
      · simp only [hfil, if_pos]
        exact h
      · simp only [hfil, if_neg, not_false_eq_true]
        cases extractProperties row.props with
        | error e => exact h
        | ok props0 => simp [h]

lemma processRow_count_le (hi : Bool) (st : ConvState) (row : RawRecord) :
    (processRow hi st row).count ≤ st.count + 1 := by
  unfold processRow
  cases row.geometry with
  | none => exact Nat.le_succ _
  | some g =>
      by_cases hfil : hi ∧ !g.intersectsInput
      · simp only [hfil, if_pos]
        exact Nat.le_succ _
      · simp only [hfil, if_neg, not_false_eq_true]
        cases extractProperties row.props with
        | error e => exact Nat.le_succ _
        | ok props0 => simp

lemma convertRows_bounds (limit : Nat) (hi : Bool) (rows : List RawRecord) :
    ∀ st : ConvState, st.features.length = st.count → st.count ≤ limit →
      (convertRows limit hi st rows).features.length = (convertRows limit hi st rows).count ∧
      (convertRows limit hi st rows).count ≤ limit := by
  induction rows with
  | nil => intro st h1 h2; exact ⟨h1, h2⟩
  | cons row rest ih =>
      intro st h1 h2
      unfold convertRows
      by_cases hc : limit ≤ st.count
      · simp only [hc, if_pos]
        exact ⟨h1, h2⟩
      · simp only [hc, if_neg, not_false_eq_true]
        refine ih _ (processRow_length_count hi st row h1) ?_
        have := processRow_count_le hi st row
        omega

lemma convertBatches_bounds (limit : Nat) (hi : Bool) (batches : List (List RawRecord)) :
    ∀ st : ConvState, st.features.length = st.count → st.count ≤ limit →
      (convertBatches limit hi st batches).features.length =
        (convertBatches limit hi st batches).count ∧
      (convertBatches limit hi st batches).count ≤ limit := by
  induction batches with
  | nil => intro st h1 h2; exact ⟨h1, h2⟩
  | cons batch rest ih =>
      intro st h1 h2
      unfold convertBatches
      by_cases hc : limit ≤ st.count
      · simp only [hc, if_pos]
        exact ⟨h1, h2⟩
      · simp only [hc, if_neg, not_false_eq_true]
        obtain ⟨g1, g2⟩ := convertRows_bounds limit hi batch st h1 h2
        exact ih _ g1 g2

lemma toFeatureCollection_length_le (batches : List (List RawRecord)) (limit : Nat) (hi : Bool) :
    (toFeatureCollection batches limit hi).length ≤ limit := by
  unfold toFeatureCollection
  obtain ⟨g1, g2⟩ :=
    convertBatches_bounds limit hi batches
      { features := [], count := 0, filteredCount := 0 } rfl (Nat.zero_le _)
  omega

lemma sumSizes_append_single (acc : List (List RawRecord)) (b : List RawRecord) :
    sumSizes (acc ++ [b]) = sumSizes acc + b.length := by
  simp [sumSizes]

lemma downloadLoop_total_le (limit : Nat) (bs : List (List RawRecord)) :
    ∀ (acc : List (List RawRecord)) (t : Nat),
      (downloadLoop limit acc t bs).2 ≤ t + sumSizes bs := by
  induction bs with
  | nil => intro acc t; simp [downloadLoop, sumSizes]
  | cons b rest ih =>
      intro acc t
      unfold downloadLoop
      by_cases hc : limit ≤ t + b.length
      · simp only [hc, if_pos]
        simp [sumSizes]
      · simp only [hc, if_neg, not_false_eq_true]
        have := ih (acc ++ [b]) (t + b.length)
        simp [sumSizes] at this ⊢
        omega

lemma downloadLoop_sum_eq (limit : Nat) (bs : List (List RawRecord)) :
    ∀ (acc : List (List RawRecord)) (t : Nat), sumSizes acc = t →
      sumSizes (downloadLoop limit acc t bs).1 = (downloadLoop limit acc t bs).2 := by
  induction bs with
  | nil => intro acc t h; simpa [downloadLoop]
  | cons b rest ih =>
      intro acc t h
      unfold downloadLoop
      by_cases hc : limit ≤ t + b.length
      · simp only [hc, if_pos]
        rw [sumSizes_append_single, h]
      · simp only [hc, if_neg, not_false_eq_true]
        exact ih (acc ++ [b]) (t + b.length) (by rw [sumSizes_append_single, h])

lemma downloadLoop_total_bound (limit : Nat) (bs : List (List RawRecord)) :
    ∀ (acc : List (List RawRecord)) (t : Nat), t ≤ limit →
      (downloadLoop limit acc t bs).2 ≤ limit + maxBatchSize bs := by
  induction bs with
  | nil => intro acc t h; simpa [downloadLoop, maxBatchSize]
  | cons b rest ih =>
      intro acc t h
      unfold downloadLoop
      by_cases hc : limit ≤ t + b.length
      · simp only [hc, if_pos]
        simp only [maxBatchSize, List.map_cons, List.foldr_cons]
        have : b.length ≤ max b.length ((rest.map List.length).foldr max 0) :=
          le_max_left _ _
        omega
      · simp only [hc, if_neg, not_false_eq_true]
        have hrec := ih (acc ++ [b]) (t + b.length) (by omega)
        have hmono : maxBatchSize rest ≤ maxBatchSize (b :: rest) := by
          simp only [maxBatchSize, List.map_cons, List.foldr_cons]
          exact le_max_right _ _
        omega

lemma fetch_ok_eq (stream : List (List RawRecord)) (limit : Nat) :
    fetchBuildingsFromOverture (.ok (some stream)) limit =
      .ok { geojson := toFeatureCollection (downloadLoop limit [] 0 stream).1 limit true
            building_count :=
              (toFeatureCollection (downloadLoop limit [] 0 stream).1 limit true).length
            truncated := decide (limit < (downloadLoop limit [] 0 stream).2)
            limit := limit } :=
  rfl

/-- A raw record whose geometry parses and intersects the input polygon,
with no further attribute fields. -/
def recOk : RawRecord :=
  { geometry := some { centroidX := 3, centroidY := 7, intersectsInput := true }
    props := [] }

/-- A raw record whose geometry parses but does not intersect the input
polygon (it is dropped by the spatial filter). -/
def recOut : RawRecord :=
  { geometry := some { centroidX := 4, centroidY := 8, intersectsInput := false }
    props := [] }

/-- The feature produced from recOk. -/
def featOk : Feature :=
  { geometry := { centroidX := 3, centroidY := 7, intersectsInput := true }
    properties := [("latitude", .float 7), ("longitude", .float 3)] }

/-- The fetch result for a stream of one single-record batch with
limit 1. -/
def fetchResOk1 : BuildingFetchResult :=
  { geojson := [featOk], building_count := 1, truncated := false, limit := 1 }

/-- C1 (amended): the truncated flag of a fetch result is true exactly
when the raw downloaded record count strictly exceeds the limit; when the
total upstream record count equals the limit exactly, the result is NOT
flagged as truncated. -/
theorem truncated_iff_raw_count_exceeds_limit
    (stream : List (List RawRecord)) (limit : Nat) (r : BuildingFetchResult)
    (h : fetchBuildingsFromOverture (.ok (some stream)) limit = .ok r) :
    (r.truncated = true ↔ limit < (downloadLoop limit [] 0 stream).2) ∧
    (sumSizes stream = limit → r.truncated = false) := by
  unfold fetchBuildingsFromOverture at h
  simp only [Except.ok.injEq] at h
  subst h
  refine ⟨by simp, ?_⟩
  intro hsum
  have hle := downloadLoop_total_le limit stream [] 0
  rw [hsum] at hle
  simp only [decide_eq_false_iff_not]
  omega

/-- C1 witness: a stream of exactly one record with limit 1 reaches the
borderline case, and the theorem applies to it. -/
theorem truncated_iff_raw_count_exceeds_limit_witness :
    fetchBuildingsFromOverture (.ok (some [[recOk]])) 1 = .ok fetchResOk1 ∧
    ((fetchResOk1.truncated = true ↔ 1 < (downloadLoop 1 [] 0 [[recOk]]).2) ∧
      (sumSizes [[recOk]] = 1 → fetchResOk1.truncated = false)) :=
  ⟨rfl, truncated_iff_raw_count_exceeds_limit [[recOk]] 1 fetchResOk1 rfl⟩

/-- C1 counterexample: the upstream total equals the limit (one record,
limit 1), yet the result is not flagged truncated, contradicting the
claim that the borderline case is treated as truncated. -/
theorem truncated_on_exact_limit_counterexample :
    sumSizes [[recOk]] = 1 ∧
    fetchBuildingsFromOverture (.ok (some [[recOk]])) 1 = .ok fetchResOk1 ∧
    fetchResOk1.truncated = false :=
  ⟨rfl, rfl, rfl⟩

/-- C2: the number of features in a returned FeatureCollection never
exceeds the limit in effect. -/
theorem building_count_le_limit
    (stream : List (List RawRecord)) (limit : Nat) (r : BuildingFetchResult)
    (_hlim : 1 ≤ limit)
    (h : fetchBuildingsFromOverture (.ok (some stream)) limit = .ok r) :
    r.building_count ≤ limit := by
  unfold fetchBuildingsFromOverture at h
  simp only [Except.ok.injEq] at h
  subst h
  exact toFeatureCollection_length_le _ _ _

/-- C2 witness: the bound at a concrete stream and limit. -/
theorem building_count_le_limit_witness :
    1 ≤ 1 ∧ fetchBuildingsFromOverture (.ok (some [[recOk]])) 1 = .ok fetchResOk1 ∧
    fetchResOk1.building_count ≤ 1 :=
  ⟨by decide, rfl, building_count_le_limit [[recOk]] 1 fetchResOk1 (by decide) rfl⟩

/-- C3 counterexample: the upstream stream holds 3 records (more than the
limit 2), but because the download loop compares the RAW downloaded
count against the limit and stops after the first batch, and the second
record of that batch is then dropped by the spatial filter, the result
holds only 1 feature, not exactly the limit of 2. -/
theorem building_count_below_limit_counterexample :
    2 < sumSizes [[recOk, recOut], [recOk]] ∧
    fetchBuildingsFromOverture (.ok (some [[recOk, recOut], [recOk]])) 2 =
      .ok { geojson := [featOk], building_count := 1, truncated := false, limit := 2 } ∧
    (1 : Nat) ≠ 2 :=
  ⟨by decide, rfl, by decide⟩

/-- C3 (amended): the streaming loop compares the raw downloaded record
count against the limit: as soon as the first batch alone reaches the
limit, no further upstream data influences the result, so the retained
feature count can fall short of the limit when downloaded records are
filtered out. -/
theorem fetch_stops_on_raw_record_count
    (b : List RawRecord) (rest : List (List RawRecord)) (limit : Nat)
    (h : limit ≤ b.length) :
    fetchBuildingsFromOverture (.ok (some (b :: rest))) limit =
      fetchBuildingsFromOverture (.ok (some [b])) limit ∧
    (downloadLoop limit [] 0 (b :: rest)).2 = b.length := by
  have hdl : downloadLoop limit [] 0 (b :: rest) = ([b], b.length) := by
    unfold downloadLoop
    simp [h]
  have hdl2 : downloadLoop limit [] 0 [b] = ([b], b.length) := by
    unfold downloadLoop
    simp [h]
  constructor
  · rw [fetch_ok_eq, fetch_ok_eq, hdl, hdl2]
  · rw [hdl]

/-- C3 witness: the amended statement at the concrete stream of the
counterexample. -/
theorem fetch_stops_on_raw_record_count_witness :
    2 ≤ ([recOk, recOut] : List RawRecord).length ∧
    (fetchBuildingsFromOverture (.ok (some [[recOk, recOut], [recOk]])) 2 =
        fetchBuildingsFromOverture (.ok (some [[recOk, recOut]])) 2 ∧
      (downloadLoop 2 [] 0 [[recOk, recOut], [recOk]]).2 =
        ([recOk, recOut] : List RawRecord).length) :=
  ⟨by decide, fetch_stops_on_raw_record_count [recOk, recOut] [[recOk]] 2 (by decide)⟩

/-- C4: the property extractor DOES raise on a record with an
unrecognised field holding a multi-element list: the validity test of the
forwarding loop truth-tests a numpy boolean array, raising a ValueError
outside any try/except. -/
theorem extract_properties_raises_on_list_field :
    extractProperties [("footprint_tags", .list [.int 1, .int 2])] =
      .error "ValueError: the truth value of an array is ambiguous" :=
  rfl

/-- C5 counterexample: when the satellite imagery download fails, the
SAM2 extraction workflow returns a count of 0, confidence 0 and an empty
FeatureCollection as an ordinary successful return value (the function
has no error outcome at all), even though the segmentation would have
produced a building. -/
theorem failed_extract_empty_success_counterexample :
    extractBuildingsFromMapView Option.none (some [{ area_sqm := 50 }]) 10 10000 =
      (0, 0, []) :=
  rfl

/-- C5 (amended): the Overture fetch surfaces connection and protocol
failures as an explicit error (a raised RuntimeError wrapping the
original message), and a None reader likewise; but the SAM2 extraction
workflow returns the empty-success triple on a failed imagery download
instead of an error. -/
theorem failed_fetch_outcomes (e : String) (limit : Nat)
    (sam : Option (List SamBuilding)) (minArea maxArea : Rat) :
    fetchBuildingsFromOverture (.error e) limit =
      .error ("Failed to fetch buildings from Overture Maps: " ++ e) ∧
    fetchBuildingsFromOverture (.ok Option.none) limit =
      .error ("Failed to fetch buildings from Overture Maps: " ++
        "Overture SDK returned None - no data available for this region") ∧
    extractBuildingsFromMapView Option.none sam minArea maxArea = (0, 0, []) := by
  refine ⟨rfl, rfl, ?_⟩
  cases sam <;> rfl

/-- C6: every call of the fetch handler performs exactly one upstream
fetch invocation, including a repeated call with the same bounding box
and session state: the computed cache key never short-circuits the
fetch, because no cache is consulted. -/
theorem fetch_invoked_on_every_call
    (upstream : Unit → Except String BuildingFetchResult)
    (bbox : Rat × Rat × Rat × Rat) (st : SessionState) :
    (downloadAndProcessBuildingData upstream bbox st).2 = 1 ∧
    (downloadAndProcessBuildingData upstream bbox
        (downloadAndProcessBuildingData upstream bbox st).1).2 = 1 := by
  cases hu : upstream () <;>
    simp [downloadAndProcessBuildingData, hu]

/-- C7 counterexample: a stream of one batch of 3 records, all dropped by
the spatial filter, with limit 10: when the conversion starts, all 3 raw
records are still held in the batch accumulator while the retained
feature count of the result is 0 — the held raw data is not proportional
to the retained features, and no batch was discarded before conversion. -/
theorem raw_batches_retained_counterexample :
    heldRawRecords [[recOut, recOut, recOut]] 10 = 3 ∧
    fetchBuildingsFromOverture (.ok (some [[recOut, recOut, recOut]])) 10 =
      .ok { geojson := [], building_count := 0, truncated := false, limit := 10 } :=
  ⟨rfl, rfl⟩

/-- C7 (amended): the download phase accumulates every downloaded batch
until conversion: the raw records held when conversion starts equal the
downloaded total, which is bounded by the limit plus one batch overshoot
(but not by the retained-feature count). -/
theorem held_records_eq_downloaded_total
    (stream : List (List RawRecord)) (limit : Nat) :
    heldRawRecords stream limit = (downloadLoop limit [] 0 stream).2 ∧
    (downloadLoop limit [] 0 stream).2 ≤ limit + maxBatchSize stream :=
  ⟨downloadLoop_sum_eq limit stream [] 0 rfl,
   downloadLoop_total_bound limit stream [] 0 (Nat.zero_le _)⟩

lemma numAggGo_count (ws : List PyVal) :
    ∀ (n : Nat) (s lo hi : Rat) (a : NumStats),
      numAggGo ws n s lo hi = .ok a → a.count = n + ws.length := by
  induction ws with
  | nil =>
      intro n s lo hi a h
      simp only [numAggGo, Except.ok.injEq] at h
      subst h
      simp
  | cons w ws ih =>
      intro n s lo hi a h
      unfold numAggGo at h
      cases hq : pyNumQ w with
      | none => rw [hq] at h; exact absurd h (by simp)
      | some q =>
          rw [hq] at h
          have := ih (n + 1) (s + q) (min lo q) (max hi q) a h
          simp [this]
          omega

lemma numAgg_count (vs : List PyVal) (a : NumStats) (h : numAgg vs = .ok a) :
    a.count = vs.length := by
  cases vs with
  | nil => exact absurd h (by simp [numAgg])
  | cons v rest =>
      have h2 : (match pyNumQ v with
          | Option.none =>
              (Except.error "TypeError: unsupported operand type" : Except String NumStats)
          | some q0 => numAggGo rest 1 q0 q0 q0) = .ok a := h
      cases hq : pyNumQ v with
      | none => rw [hq] at h2; exact absurd h2 (by simp)
      | some q =>
          rw [hq] at h2
          have := numAggGo_count rest 1 q q q a h2
          simp only [List.length_cons]
          omega

lemma aggregateOpt_spec (vs : List PyVal) (o : Option NumStats)
    (h : aggregateOpt vs = .ok o) :
    (o = Option.none ↔ vs = []) ∧
    (∀ a, o = some a → a.count = vs.length) := by
  cases hvs : vs.isEmpty with
  | true =>
      have hnil : vs = [] := List.isEmpty_iff.mp hvs
      subst hnil
      simp only [aggregateOpt, List.isEmpty_nil, if_pos, Except.ok.injEq] at h
      subst h
      simp
  | false =>
      have hne : vs ≠ [] := by
        intro hc
        subst hc
        simp at hvs
      unfold aggregateOpt at h
      rw [hvs] at h
      simp only [Bool.false_eq_true, if_false] at h
      cases hn : numAgg vs with
      | error e =>
          rw [hn] at h
          have h2 : (Except.error e : Except String (Option NumStats)) = .ok o := h
          cases h2
      | ok a =>
          rw [hn] at h
          have h2 : (Except.ok (some a) : Except String (Option NumStats)) = .ok o := h
          have h3 : some a = o := by
            injection h2
          subst h3
          refine ⟨by simp [hne], ?_⟩
          intro a2 ha2
          have ha : a2 = a := by
            injection ha2.symm
          rw [ha]
          exact numAgg_count vs a hn

lemma exceptBind_ok {α β : Type} (a : α) (f : α → Except String β) :
    (Except.ok a >>= f) = f a := rfl

lemma exceptBind_error {α β : Type} (e : String) (f : α → Except String β) :
    ((Except.error e : Except String α) >>= f) = Except.error e := rfl

/-- The empty statistics dict. -/
def emptyStats : BuildingStats :=
  { heights := Option.none, floors := Option.none
    classes := Option.none, sources := Option.none }

/-- C8 (amended): the statistics computation counts, for each numeric
attribute, the features whose attribute value is present AND truthy (a
present zero is excluded); an attribute carried by no feature yields no
statistics entry rather than an error. -/
theorem stats_counts_truthy_attributes (fs : List StatFeature) (st : BuildingStats)
    (h : computeBuildingStatistics fs = .ok st) :
    (st.heights = Option.none ↔
      fs.filterMap (fun f => truthyGet f.properties "height") = []) ∧
    (∀ a, st.heights = some a →
      a.count = (fs.filterMap (fun f => truthyGet f.properties "height")).length) ∧
    (st.floors = Option.none ↔
      fs.filterMap (fun f => truthyGet f.properties "num_floors") = []) ∧
    (∀ a, st.floors = some a →
      a.count = (fs.filterMap (fun f => truthyGet f.properties "num_floors")).length) := by
  cases hfs : fs.isEmpty with
  | true =>
      have hnil : fs = [] := List.isEmpty_iff.mp hfs
      subst hnil
      have h2 : (Except.ok emptyStats : Except String BuildingStats) = .ok st := h
      have h3 : emptyStats = st := by
        injection h2
      rw [← h3]
      simp [emptyStats]
  | false =>
      unfold computeBuildingStatistics at h
      rw [hfs] at h
      simp only [Bool.false_eq_true, if_false] at h
      cases hsrc : collectSources fs with
      | error e =>
          rw [hsrc, exceptBind_error] at h
          exact Except.noConfusion h
      | ok srcs =>
          rw [hsrc, exceptBind_ok] at h
          cases hA : aggregateOpt (fs.filterMap (fun f => truthyGet f.properties "height")) with
          | error e =>
              rw [hA, exceptBind_error] at h
              exact Except.noConfusion h
          | ok ho =>
              rw [hA, exceptBind_ok] at h
              cases hB : aggregateOpt
                  (fs.filterMap (fun f => truthyGet f.properties "num_floors")) with
              | error e =>
                  rw [hB, exceptBind_error] at h
                  exact Except.noConfusion h
              | ok fo =>
                  rw [hB, exceptBind_ok] at h
                  injection h with h4
                  rw [← h4]
                  obtain ⟨hA1, hA2⟩ := aggregateOpt_spec _ _ hA
                  obtain ⟨hB1, hB2⟩ := aggregateOpt_spec _ _ hB
                  exact ⟨hA1, hA2, hB1, hB2⟩

/-- The feature carrying a present but zero height. -/
def featH0 : StatFeature := { properties := [("height", .float 0)] }

/-- The feature carrying a height of 5. -/
def featH5 : StatFeature := { properties := [("height", .float 5)] }

/-- A feature carrying no attributes. -/
def featNoAttr : StatFeature := { properties := [] }

/-- The statistics computed for the two-feature counterexample. -/
def statsH1 : BuildingStats :=
  { heights := some { count := 1, avg := 5, minV := 5, maxV := 5 }
    floors := Option.none, classes := Option.none, sources := Option.none }

/-- C8 counterexample: both features carry a height attribute, but the
truthiness filter drops the zero height, so the reported count is 1, not
the 2 present attributes the claim requires. -/
theorem zero_height_not_counted_counterexample :
    ([featH0, featH5].filter (fun f => (dictGet f.properties "height").isSome)).length = 2 ∧
    computeBuildingStatistics [featH0, featH5] = .ok statsH1 ∧
    statsH1.heights = some { count := 1, avg := 5, minV := 5, maxV := 5 } := by
  refine ⟨rfl, ?_, rfl⟩
  simp [computeBuildingStatistics, aggregateOpt, numAgg, numAggGo, pyNumQ, truthyGet,
    dictGet, pyTruthy, collectSources, sourceDataset, featH0, featH5, statsH1,
    Bind.bind, Except.bind]

/-- The feature carrying a height of 7. -/
def featH7 : StatFeature := { properties := [("height", .float 7)] }

/-- Ten features of which exactly three carry a (truthy) height. -/
def fs10 : List StatFeature :=
  [featH7, featH7, featH7, featNoAttr, featNoAttr, featNoAttr, featNoAttr,
   featNoAttr, featNoAttr, featNoAttr]

/-- The statistics computed for fs10. -/
def st10 : BuildingStats :=
  { heights := some { count := 3, avg := 7, minV := 7, maxV := 7 }
    floors := Option.none, classes := Option.none, sources := Option.none }

lemma computeBuildingStatistics_fs10 : computeBuildingStatistics fs10 = .ok st10 := by
  simp [computeBuildingStatistics, aggregateOpt, numAgg, numAggGo, pyNumQ, truthyGet,
    dictGet, pyTruthy, collectSources, sourceDataset, featH7, featNoAttr, fs10, st10,
    Bind.bind, Except.bind]
  norm_num

/-- C8 witness: on a 10-feature collection where exactly 3 features carry
a truthy height, the reported count is 3. -/
theorem stats_counts_truthy_attributes_witness :
    computeBuildingStatistics fs10 = .ok st10 ∧
    (3 : Nat) = (fs10.filterMap (fun f => truthyGet f.properties "height")).length :=
  ⟨computeBuildingStatistics_fs10,
   (stats_counts_truthy_attributes fs10 st10 computeBuildingStatistics_fs10).2.1
     { count := 3, avg := 7, minV := 7, maxV := 7 } rfl⟩

/-- C9: pagination returns exactly the slice from page times size to the
next page boundary, clipped to the collection bounds, and an out-of-range
page yields an empty list rather than an error. -/
theorem paginated_slice_semantics (fs : List StatFeature) (page perPage : Nat)
    (_h : 1 ≤ perPage) :
    getPaginatedFeatures fs page perPage = (fs.drop (page * perPage)).take perPage ∧
    (getPaginatedFeatures fs page perPage).length =
      min perPage (fs.length - page * perPage) ∧
    (∀ i : Nat, (getPaginatedFeatures fs page perPage)[i]? =
      if i < perPage then fs[page * perPage + i]? else Option.none) ∧
    (fs.length ≤ page * perPage → getPaginatedFeatures fs page perPage = []) := by
  refine ⟨rfl, ?_, ?_, ?_⟩
  · simp [getPaginatedFeatures]
  · intro i
    simp [getPaginatedFeatures, List.getElem?_take, List.getElem?_drop]
  · intro hlen
    simp [getPaginatedFeatures, List.drop_eq_nil_of_le hlen]

/-- A 25-feature collection. -/
def fs25 : List StatFeature := List.replicate 25 featNoAttr

/-- C9 witness: with 25 features and page size 10, page 2 holds
min 10 (25 - 20) = 5 features and page 5 is empty. -/
theorem paginated_slice_semantics_witness :
    1 ≤ 10 ∧
    (getPaginatedFeatures fs25 2 10).length = min 10 (fs25.length - 2 * 10) ∧
    getPaginatedFeatures fs25 5 10 = [] :=
  ⟨by decide, (paginated_slice_semantics fs25 2 10 (by decide)).2.1,
   (paginated_slice_semantics fs25 5 10 (by decide)).2.2.2 (by decide)⟩

/-- C10: every feature produced by the conversion pipeline carries
latitude and longitude properties equal to the centroid coordinates of
its own geometry (overwriting any upstream attribute of those names). -/
theorem features_carry_centroid_coordinates
    (batches : List (List RawRecord)) (limit : Nat) (hi : Bool) (f : Feature)
    (h : f ∈ toFeatureCollection batches limit hi) :
    dictGet f.properties "latitude" = some (.float f.geometry.centroidY) ∧
    dictGet f.properties "longitude" = some (.float f.geometry.centroidX) :=
  convertBatches_centroidProps limit hi batches
    { features := [], count := 0, filteredCount := 0 }
    (by intro f2 hf2; cases hf2) f h

/-- A raw record whose upstream attributes already carry latitude and
longitude values different from the centroid coordinates. -/
def recUp : RawRecord :=
  { geometry := some { centroidX := 3, centroidY := 7, intersectsInput := true }
    props := [("latitude", .str "upstream"), ("longitude", .int 999)] }

/-- The feature produced from recUp: the upstream latitude and longitude
are overwritten by the centroid coordinates. -/
def featUp : Feature :=
  { geometry := { centroidX := 3, centroidY := 7, intersectsInput := true }
    properties := [("latitude", .float 7), ("longitude", .float 3)] }

/-- C10 witness: the record whose upstream latitude and longitude
attributes are overwritten by the centroid coordinates. -/
theorem features_carry_centroid_coordinates_witness :
    featUp ∈ toFeatureCollection [[recUp]] 5 true ∧
    (dictGet featUp.properties "latitude" = some (.float featUp.geometry.centroidY) ∧
      dictGet featUp.properties "longitude" = some (.float featUp.geometry.centroidX)) := by
  have hm : featUp ∈ toFeatureCollection [[recUp]] 5 true := by
    rw [show toFeatureCollection [[recUp]] 5 true = [featUp] from rfl]
    exact List.mem_singleton.mpr rfl
  exact ⟨hm, features_carry_centroid_coordinates [[recUp]] 5 true featUp hm⟩
